import Mathlib

/-
Verification development for the nemo_retriever_parse plugin.

The repository is a small Python plugin with two source files:
`nemo_retriever.py` (the pipeline: create_headers, upload_asset,
process_image, parse_nemo_response_to_detections, run_nemo_parse) and
`__init__.py` (the host-operator wrapper).  This file gives a shallow
embedding of the pure content of that code: JSON values, the Python
subscript/iteration/float semantics the code relies on, the response
parsing, the header construction, the two-call upload protocol, and the
batch loop with its per-item exception handling.  Network and filesystem
effects are modelled by passing the observed HTTP responses (or the fact
that an exception was raised) as explicit inputs.

JSON numbers are modelled as integers: every numeric value the claims
exercise (coordinates, token counts, HTTP statuses) is integral, and the
coordinate arithmetic in the source is exact on integers.
-/

namespace Nemo

/-- JSON values as produced by json decoding in Python: null, booleans,
numbers (modelled as integers), strings, arrays and objects (assoc lists
in insertion order, as Python dicts preserve insertion order). -/
inductive JVal where
  | jnull : JVal
  | jbool : Bool → JVal
  | jnum : Int → JVal
  | jstr : String → JVal
  | jarr : List JVal → JVal
  | jobj : List (String × JVal) → JVal

/-- Character constants built by code point, used by the JSON lexer. -/
def qmChar : Char := Char.ofNat 34

def bsChar : Char := Char.ofNat 92

def lbChar : Char := Char.ofNat 123

def rbChar : Char := Char.ofNat 125

def spChar : Char := Char.ofNat 32

/-- JSON whitespace: space, tab, line feed, carriage return. -/
def isWsChar (c : Char) : Bool :=
  c = spChar || c = Char.ofNat 9 || c = Char.ofNat 10 || c = Char.ofNat 13

def skipWs : List Char → List Char
  | [] => []
  | c :: cs => if isWsChar c then skipWs cs else c :: cs

def isDigitCh (c : Char) : Bool := 48 ≤ c.toNat && c.toNat ≤ 57

def digitVal (c : Char) : Nat := c.toNat - 48

def pDigits : List Char → Nat → Nat × List Char
  | [], acc => (acc, [])
  | c :: cs, acc =>
    if isDigitCh c then pDigits cs (acc * 10 + digitVal c) else (acc, c :: cs)

def hexVal (c : Char) : Option Nat :=
  if 48 ≤ c.toNat && c.toNat ≤ 57 then some (c.toNat - 48)
  else if 97 ≤ c.toNat && c.toNat ≤ 102 then some (c.toNat - 87)
  else if 65 ≤ c.toNat && c.toNat ≤ 70 then some (c.toNat - 55)
  else none

/-- JSON string escapes accepted by json.loads. -/
def escChar (c : Char) : Option Char :=
  if c = qmChar then some qmChar
  else if c = bsChar then some bsChar
  else if c = Char.ofNat 47 then some (Char.ofNat 47)
  else if c = Char.ofNat 98 then some (Char.ofNat 8)
  else if c = Char.ofNat 102 then some (Char.ofNat 12)
  else if c = Char.ofNat 110 then some (Char.ofNat 10)
  else if c = Char.ofNat 114 then some (Char.ofNat 13)
  else if c = Char.ofNat 116 then some (Char.ofNat 9)
  else none

/-- Body of a JSON string after the opening quote: returns the decoded
characters and the remaining input.  Unicode escapes decode a 4-digit
hex code point (surrogate pairing is not modelled; no claim uses it). -/
def pStrChars : List Char → Except Unit (List Char × List Char)
  | [] => .error ()
  | c :: cs =>
    if c = qmChar then .ok ([], cs)
    else if c = bsChar then
      match cs with
      | [] => .error ()
      | e :: cs2 =>
        if e = Char.ofNat 117 then
          match cs2 with
          | h1 :: h2 :: h3 :: h4 :: cs3 =>
            match hexVal h1, hexVal h2, hexVal h3, hexVal h4 with
            | some a, some b, some d, some f =>
              match pStrChars cs3 with
              | .ok (s, rest) => .ok (Char.ofNat (((a * 16 + b) * 16 + d) * 16 + f) :: s, rest)
              | .error u => .error u
            | _, _, _, _ => .error ()
          | _ => .error ()
        else
          match escChar e with
          | some r =>
            match pStrChars cs2 with
            | .ok (s, rest) => .ok (r :: s, rest)
            | .error u => .error u
          | none => .error ()
    else
      match pStrChars cs with
      | .ok (s, rest) => .ok (c :: s, rest)
      | .error u => .error u

/-- JSON numbers; only integral literals (with optional minus sign) are
modelled, matching the integral values the repository exercises. -/
def pNum : List Char → Except Unit (Int × List Char)
  | [] => .error ()
  | c :: cs =>
    if c = Char.ofNat 45 then
      match cs with
      | d :: cs2 =>
        if isDigitCh d then
          match pDigits cs2 (digitVal d) with
          | (n, rest) => .ok (-(Int.ofNat n), rest)
        else .error ()
      | [] => .error ()
    else if isDigitCh c then
      match pDigits cs (digitVal c) with
      | (n, rest) => .ok (Int.ofNat n, rest)
    else .error ()

/-- Insert-or-replace on an assoc list, preserving the position of an
existing key: the behaviour of Python dict assignment, used so that
duplicate JSON object keys keep the last value at the first position. -/
def insertReplace : List (String × JVal) → String → JVal → List (String × JVal)
  | [], k, v => [(k, v)]
  | (k2, v2) :: rest, k, v =>
    if k2 = k then (k, v) :: rest else (k2, v2) :: insertReplace rest k v

def expectChars : List Char → List Char → Option (List Char)
  | [], rest => some rest
  | e :: es, c :: cs => if c = e then expectChars es cs else none
  | _ :: _, [] => none

mutual

/-- Fuel-indexed JSON value reader modelling json.loads; the fuel chosen
by jloads is generous enough for every input the development evaluates. -/
def pVal : Nat → List Char → Except Unit (JVal × List Char)
  | 0, _ => .error ()
  | Nat.succ fuel, cs =>
    match skipWs cs with
    | [] => .error ()
    | c :: rest =>
      if c = qmChar then
        match pStrChars rest with
        | .ok (s, r) => .ok (JVal.jstr (String.mk s), r)
        | .error u => .error u
      else if c = lbChar then pObj fuel rest
      else if c = '[' then pArr fuel rest
      else if c = 't' then
        match expectChars [Char.ofNat 114, Char.ofNat 117, Char.ofNat 101] rest with
        | some r => .ok (JVal.jbool true, r)
        | none => .error ()
      else if c = 'f' then
        match expectChars [Char.ofNat 97, Char.ofNat 108, Char.ofNat 115, Char.ofNat 101] rest with
        | some r => .ok (JVal.jbool false, r)
        | none => .error ()
      else if c = 'n' then
        match expectChars [Char.ofNat 117, Char.ofNat 108, Char.ofNat 108] rest with
        | some r => .ok (JVal.jnull, r)
        | none => .error ()
      else
        match pNum (c :: rest) with
        | .ok (n, r) => .ok (JVal.jnum n, r)
        | .error u => .error u

def pArr : Nat → List Char → Except Unit (JVal × List Char)
  | 0, _ => .error ()
  | Nat.succ fuel, cs =>
    match skipWs cs with
    | c :: rest =>
      if c = ']' then .ok (JVal.jarr [], rest)
      else
        match pArrItems fuel (c :: rest) with
        | .ok (vs, r) => .ok (JVal.jarr vs, r)
        | .error u => .error u
    | [] => .error ()

def pArrItems : Nat → List Char → Except Unit (List JVal × List Char)
  | 0, _ => .error ()
  | Nat.succ fuel, cs =>
    match pVal fuel cs with
    | .error u => .error u
    | .ok (v, r) =>
      match skipWs r with
      | c :: rest =>
        if c = ',' then
          match pArrItems fuel rest with
          | .ok (vs, r2) => .ok (v :: vs, r2)
          | .error u => .error u
        else if c = ']' then .ok ([v], rest)
        else .error ()
      | [] => .error ()

def pObj : Nat → List Char → Except Unit (JVal × List Char)
  | 0, _ => .error ()
  | Nat.succ fuel, cs =>
    match skipWs cs with
    | c :: rest =>
      if c = rbChar then .ok (JVal.jobj [], rest)
      else
        match pObjItems fuel (c :: rest) with
        | .ok (kvs, r) =>
          .ok (JVal.jobj (kvs.foldl (fun acc kv => insertReplace acc kv.1 kv.2) []), r)
        | .error u => .error u
    | [] => .error ()

def pObjItems : Nat → List Char → Except Unit (List (String × JVal) × List Char)
  | 0, _ => .error ()
  | Nat.succ fuel, cs =>
    match skipWs cs with
    | c :: rest =>
      if c = qmChar then
        match pStrChars rest with
        | .error u => .error u
        | .ok (k, r) =>
          match skipWs r with
          | c2 :: rest2 =>
            if c2 = ':' then
              match pVal fuel rest2 with
              | .error u => .error u
              | .ok (v, r2) =>
                match skipWs r2 with
                | c3 :: rest3 =>
                  if c3 = ',' then
                    match pObjItems fuel rest3 with
                    | .ok (kvs, r3) => .ok ((String.mk k, v) :: kvs, r3)
                    | .error u => .error u
                  else if c3 = rbChar then .ok ([(String.mk k, v)], rest3)
                  else .error ()
                | [] => .error ()
            else .error ()
          | [] => .error ()
      else .error ()
    | [] => .error ()

end

/-- Model of json.loads on a string: parse one JSON value and require
that only whitespace remains. -/
def jloads (s : String) : Except Unit JVal :=
  match pVal (4 * s.length + 8) s.toList with
  | .ok (v, r) => if (skipWs r).isEmpty then .ok v else .error ()
  | .error u => .error u

/-- Assoc-list lookup (first match), the reading side of Python dicts. -/
def lookupA {α : Type} : List (String × α) → String → Option α
  | [], _ => none
  | (k2, v) :: rest, k => if k2 = k then some v else lookupA rest k

/-- Insert-or-replace for generic assoc lists: the behaviour of Python
dict assignment and of dict.update for a single key. -/
def setAssoc {α : Type} : List (String × α) → String → α → List (String × α)
  | [], k, v => [(k, v)]
  | (k2, v2) :: rest, k, v =>
    if k2 = k then (k, v) :: rest else (k2, v2) :: setAssoc rest k v

/-- Python subscript x[key] with a string key: succeeds only on a dict
that has the key; every other shape raises (KeyError / TypeError). -/
def subKey (v : JVal) (k : String) : Except Unit JVal :=
  match v with
  | .jobj kvs =>
    match lookupA kvs k with
    | some r => .ok r
    | none => .error ()
  | _ => .error ()

/-- Python subscript x[0]: first element of a list, first character of a
string (as a one-character string); anything else raises. -/
def subZero : JVal → Except Unit JVal
  | .jarr (x :: _) => .ok x
  | .jarr [] => .error ()
  | .jstr s =>
    match s.toList with
    | c :: _ => .ok (JVal.jstr (String.mk [c]))
    | [] => .error ()
  | _ => .error ()

/-- Python iteration over a value: lists yield elements, strings yield
one-character strings, dicts yield their keys; other values raise. -/
def pyIter : JVal → Except Unit (List JVal)
  | .jarr xs => .ok xs
  | .jstr s => .ok (s.toList.map (fun c => JVal.jstr (String.mk [c])))
  | .jobj kvs => .ok (kvs.map (fun kv => JVal.jstr kv.1))
  | _ => .error ()

/-- Python float() as applied by the source to bbox coordinates: numbers
pass through, booleans coerce to 0 or 1, numeric strings are parsed
(integral literals; the repository only handles integral coordinates),
everything else raises. -/
def pyFloat : JVal → Except Unit Int
  | .jnum n => .ok n
  | .jbool b => .ok (if b then 1 else 0)
  | .jstr s =>
    match pNum (skipWs s.toList) with
    | .ok (n, rest) => if (skipWs rest).isEmpty then .ok n else .error ()
    | .error _ => .error ()
  | _ => .error ()

/-- Python dict.get(key, default): total on dicts, raises on any other
receiver (AttributeError). -/
def pyGet (v : JVal) (k : String) (dflt : JVal) : Except Unit JVal :=
  match v with
  | .jobj kvs => .ok ((lookupA kvs k).getD dflt)
  | _ => .error ()

/-- Python str() on the scalar values the pipeline passes to it; the
container reprs are never exercised by the source paths modelled here
(upload_asset applies str to the assetId field of a JSON body). -/
def pyStr : JVal → String
  | .jstr s => s
  | .jnum n => toString n
  | .jbool true => ("True")
  | .jbool false => ("False")
  | .jnull => ("None")
  | .jarr _ => ("")
  | .jobj _ => ("")

/-- One detected region, as built at nemo_retriever.py lines 145 to 149:
label and text carry whatever JSON value the element held, bounding_box
is the [x, y, width, height] integer list computed from the bbox. -/
structure Detection where
  label : JVal
  bounding_box : List Int
  text : JVal

/-- Navigation response.choices[0].message, the head of the extraction
chain at nemo_retriever.py line 131. -/
def getMessage (response : JVal) : Except Unit JVal :=
  match subKey response ("choices") with
  | .error u => .error u
  | .ok choices =>
    match subZero choices with
    | .error u => .error u
    | .ok choice0 => subKey choice0 ("message")

/-- Full extraction chain of line 131:
choices[0].message.tool_calls[0].function.arguments. -/
def extractArgs (response : JVal) : Except Unit JVal :=
  match getMessage response with
  | .error u => .error u
  | .ok message =>
    match subKey message ("tool_calls") with
    | .error u => .error u
    | .ok tcs =>
      match subZero tcs with
      | .error u => .error u
      | .ok tc0 =>
        match subKey tc0 ("function") with
        | .error u => .error u
        | .ok fn => subKey fn ("arguments")

/-- json.loads applied to the extracted arguments value (line 132):
loads requires a string receiver, any other value raises TypeError. -/
def loadsVal : JVal → Except Unit JVal
  | .jstr s => jloads s
  | _ => .error ()

/-- Lines 131 and 132 followed by the loop header of line 135: extract
the arguments, decode them, take element [0] of the decoded value, and
obtain the iteration sequence over it. -/
def extractElems (response : JVal) : Except Unit (List JVal) :=
  match extractArgs response with
  | .error u => .error u
  | .ok bbox_data =>
    match loadsVal bbox_data with
    | .error u => .error u
    | .ok loaded =>
      match subZero loaded with
      | .error u => .error u
      | .ok elements => pyIter elements

/-- Body of the element loop (lines 135 to 150): the four coordinate
reads with float conversion, the width/height subtraction, and the type
and text lookups; any failure raises out of the loop body. -/
def convElem (elem : JVal) : Except Unit Detection :=
  match subKey elem ("bbox") with
  | .error u => .error u
  | .ok bb =>
    match subKey bb ("xmin") with
    | .error u => .error u
    | .ok vxmin =>
      match pyFloat vxmin with
      | .error u => .error u
      | .ok xmin =>
        match subKey bb ("ymin") with
        | .error u => .error u
        | .ok vymin =>
          match pyFloat vymin with
          | .error u => .error u
          | .ok ymin =>
            match subKey bb ("xmax") with
            | .error u => .error u
            | .ok vxmax =>
              match pyFloat vxmax with
              | .error u => .error u
              | .ok xmax =>
                match subKey bb ("ymax") with
                | .error u => .error u
                | .ok vymax =>
                  match pyFloat vymax with
                  | .error u => .error u
                  | .ok ymax =>
                    match subKey elem ("type") with
                    | .error u => .error u
                    | .ok lab =>
                      match subKey elem ("text") with
                      | .error u => .error u
                      | .ok txt =>
                        .ok ⟨lab, [xmin, ymin, xmax - xmin, ymax - ymin], txt⟩

/-- The accumulating element loop: detections gathered so far are kept
when an element raises, exactly as the Python list named detections
persists across the try block of lines 129 to 153. -/
def parsedLoop : List JVal → List Detection → List Detection
  | [], acc => acc
  | e :: es, acc =>
    match convElem e with
    | .ok d => parsedLoop es (acc ++ [d])
    | .error _ => acc

/-- parse_nemo_response_to_detections (lines 119 to 155): the whole
extraction and loop wrapped in try/except; on any failure the function
returns whatever the detections list holds at that point. -/
def parse_nemo_response_to_detections (response : JVal) : List Detection :=
  match extractElems response with
  | .ok elems => parsedLoop elems []
  | .error _ => []

/-- Straight-line form of the loop result: convert elements until the
first failing one and drop the rest. -/
def convUntilError : List JVal → List Detection
  | [] => []
  | e :: es =>
    match convElem e with
    | .ok d => d :: convUntilError es
    | .error _ => []

/-- Conversion of a whole element list when every element is valid. -/
def convAll : List JVal → Option (List Detection)
  | [] => some []
  | e :: es =>
    match convElem e with
    | .error _ => none
    | .ok d =>
      match convAll es with
      | none => none
      | some ds => some (d :: ds)

/-- create_headers (lines 9 to 32): base Authorization and Accept
headers; a provided, truthy asset id additionally merges in the
Content-Type header and the two NVCF asset headers via dict.update. -/
def dictUpdate (base upd : List (String × String)) : List (String × String) :=
  upd.foldl (fun acc kv => setAssoc acc kv.1 kv.2) base

def create_headers (api_key : String) (asset_id : Option String) : List (String × String) :=
  let headers := [(("Authorization"), ("Bearer ") ++ api_key), (("Accept"), ("application/json"))]
  match asset_id with
  | some a =>
    if a = ("") then headers
    else
      dictUpdate headers
        [(("Content-Type"), ("application/json")),
         (("NVCF-INPUT-ASSET-REFERENCES"), a),
         (("NVCF-FUNCTION-ASSET-IDS"), a)]
  | none => headers

/-- Headers of the raw-bytes PUT at lines 62 to 65 of upload_asset. -/
def upload_put_headers (description : String) : List (String × String) :=
  [(("x-amz-meta-nvcf-asset-description"), description),
   (("content-type"), ("image/jpeg"))]

/-- An observed HTTP response: status code and textual body. -/
structure HttpResp where
  status : Nat
  body : String

/-- raise_for_status of the requests library: 4xx and 5xx raise. -/
def statusErr (s : Nat) : Bool := 400 ≤ s && s < 600

/-- upload_asset (lines 34 to 70), with the two network responses the
two calls observe passed as inputs (each call is issued exactly once, in
this order; there is no retry in the source).  The first response is
checked, its JSON body read, the uploadUrl key looked up to address the
PUT, the second response checked, and the assetId of the first body
returned through str(). -/
def upload_asset (auth_response upload_response : HttpResp) : Except Unit String :=
  if statusErr auth_response.status then .error ()
  else
    match jloads auth_response.body with
    | .error u => .error u
    | .ok auth_data =>
      match subKey auth_data ("uploadUrl") with
      | .error u => .error u
      | .ok _uploadUrl =>
        if statusErr upload_response.status then .error ()
        else
          match subKey auth_data ("assetId") with
          | .error u => .error u
          | .ok assetId => .ok (pyStr assetId)

/-- Accumulators of the batch loop of run_nemo_parse (lines 181 to 184),
named after the four Python lists. -/
structure RunOut where
  all_detections : List (List Detection)
  prompt_tokens : List JVal
  completion_tokens : List JVal
  total_tokens : List JVal

/-- The except branch of lines 202 to 208: append an empty Detections
value and three integer zeros. -/
def failItem (acc : RunOut) : RunOut :=
  { all_detections := acc.all_detections ++ [[]],
    prompt_tokens := acc.prompt_tokens ++ [JVal.jnum 0],
    completion_tokens := acc.completion_tokens ++ [JVal.jnum 0],
    total_tokens := acc.total_tokens ++ [JVal.jnum 0] }

/-- Token extraction of lines 197 to 200: response.get with default
empty dict, then the three usage.get reads with default 0.  The first
get raises when the response is not a dict; the later gets raise when
the usage value is not a dict; once usage is a dict none of them can
raise, so the three appends of the source happen all or nothing. -/
def usageTokens (response : JVal) : Except Unit (JVal × JVal × JVal) :=
  match pyGet response ("usage") (JVal.jobj []) with
  | .error u => .error u
  | .ok usage =>
    match pyGet usage ("prompt_tokens") (JVal.jnum 0) with
    | .error u => .error u
    | .ok p =>
      match pyGet usage ("completion_tokens") (JVal.jnum 0) with
      | .error u => .error u
      | .ok c =>
        match pyGet usage ("total_tokens") (JVal.jnum 0) with
        | .error u => .error u
        | .ok t => .ok (p, c, t)

/-- One iteration of the loop of lines 187 to 208.  The argument is the
outcome of process_image for this file: an exception (error) or the
decoded JSON response.  Mirroring the source order: the detections are
appended first; if token extraction then raises, the except branch runs
on the state that already holds that append, so all_detections receives
a second entry for the same image. -/
def runItem (r : Except Unit JVal) (acc : RunOut) : RunOut :=
  match r with
  | .error _ => failItem acc
  | .ok response =>
    let d := parse_nemo_response_to_detections response
    let acc1 := { acc with all_detections := acc.all_detections ++ [d] }
    match usageTokens response with
    | .error _ => failItem acc1
    | .ok (p, c, t) =>
      { acc1 with
        prompt_tokens := acc1.prompt_tokens ++ [p],
        completion_tokens := acc1.completion_tokens ++ [c],
        total_tokens := acc1.total_tokens ++ [t] }

/-- The whole batch loop, folding over the dataset filepaths.  The
environment function gives, for each filepath, the outcome of the
process_image pipeline (file read, upload, parse invocation and JSON
decoding): either a raised exception or the response value. -/
def runLists (env : String → Except Unit JVal) (filepaths : List String) : RunOut :=
  filepaths.foldl (fun acc p => runItem (env p) acc) ⟨[], [], [], []⟩

/-- Values stored into dataset fields: Detections objects for the
nemo_detections column, raw JSON scalars for the token columns. -/
inductive PyVal where
  | dets : List Detection → PyVal
  | j : JVal → PyVal

/-- The host dataset as the pipeline sees it: the filepath of every
sample in order, and named per-sample value columns. -/
structure Dataset where
  filepaths : List String
  fields : List (String × List PyVal)

/-- dataset.set_values: stores a full column, replacing a column of the
same name if one exists. -/
def Dataset.set_values (ds : Dataset) (name : String) (vals : List PyVal) : Dataset :=
  { ds with fields := setAssoc ds.fields name vals }

def getField (ds : Dataset) (name : String) : Option (List PyVal) :=
  lookupA ds.fields name

/-- run_nemo_parse (lines 157 to 214): run the batch loop over the
dataset filepaths, then write the four result columns in one batch of
set_values calls at the end. -/
def run_nemo_parse (env : String → Except Unit JVal) (ds : Dataset) : Dataset :=
  let out := runLists env ds.filepaths
  ((((ds.set_values ("nemo_detections") (out.all_detections.map PyVal.dets)).set_values
      ("nemo_prompt_tokens") (out.prompt_tokens.map PyVal.j)).set_values
      ("nemo_completion_tokens") (out.completion_tokens.map PyVal.j)).set_values
      ("nemo_total_tokens") (out.total_tokens.map PyVal.j))

/-- True when the response handling of the loop body cannot itself raise
after the detections append: pipeline failures are fine (the except
branch appends once to every list), and responses whose usageTokens
extraction succeeds are fine. -/
def goodResp : Except Unit JVal → Bool
  | .error _ => true
  | .ok response =>
    match usageTokens response with
    | .ok _ => true
    | .error _ => false

/-- The detections column entry an item contributes on its aligned
path. -/
def itemDets : Except Unit JVal → List Detection
  | .error _ => []
  | .ok response => parse_nemo_response_to_detections response

def itemTokP : Except Unit JVal → JVal
  | .error _ => JVal.jnum 0
  | .ok response =>
    match usageTokens response with
    | .ok (p, _, _) => p
    | .error _ => JVal.jnum 0

def itemTokC : Except Unit JVal → JVal
  | .error _ => JVal.jnum 0
  | .ok response =>
    match usageTokens response with
    | .ok (_, c, _) => c
    | .error _ => JVal.jnum 0

def itemTokT : Except Unit JVal → JVal
  | .error _ => JVal.jnum 0
  | .ok response =>
    match usageTokens response with
    | .ok (_, _, t) => t
    | .error _ => JVal.jnum 0

/-- Module-level names defined by nemo_retriever.py. -/
def nemo_retriever_module_defs : List String :=
  [("create_headers"), ("upload_asset"), ("process_image"),
   ("parse_nemo_response_to_detections"), ("run_nemo_parse")]

/-- The name the package entry point pulls from the core module at
line 7 of the plugin entry file. -/
def init_module_pulled_name : String := ("run_nemo_retriever_parse")

/-- Python from-module-pull-name semantics: succeeds only when the
module defines the requested name, otherwise the package load raises. -/
def module_pull (module_defs : List String) (name : String) : Except String Unit :=
  if name ∈ module_defs then .ok ()
  else .error (("ImportError: cannot import name ") ++ name)

/-- Loading the plugin package executes the entry file, whose first
effect is pulling init_module_pulled_name from nemo_retriever.py. -/
def load_plugin_package : Except String Unit :=
  module_pull nemo_retriever_module_defs init_module_pulled_name

/-
Concrete test inputs.  The JSON texts are assembled from these builders
(the brace and quote characters are produced by code point). -/

def quoteStr : String := String.mk [qmChar]

def lbraceStr : String := String.mk [lbChar]

def rbraceStr : String := String.mk [rbChar]

def jstrStr (s : String) : String := quoteStr ++ s ++ quoteStr

def jobjStr (kvs : List (String × String)) : String :=
  lbraceStr ++ String.intercalate (", ") (kvs.map (fun kv => jstrStr kv.1 ++ (": ") ++ kv.2)) ++ rbraceStr

def jarrStr (xs : List String) : String :=
  ("[") ++ String.intercalate (", ") xs ++ ("]")

/-- JSON text of one well-formed element object with the given type,
text and integral bbox coordinates. -/
def elemStr (ty txt x1 y1 x2 y2 : String) : String :=
  jobjStr [(("type"), jstrStr ty), (("text"), jstrStr txt),
    (("bbox"), jobjStr [(("xmin"), x1), (("ymin"), y1), (("xmax"), x2), (("ymax"), y2)])]

/-- The arguments payload of a well-formed response holding exactly one
element, with bbox corners (10, 20) and (110, 220). -/
def argStringA : String := jarrStr [jarrStr [elemStr ("text") ("hello") ("10") ("20") ("110") ("220")]]

/-- The arguments payload whose second element lacks the bbox key, so
the element loop raises partway through. -/
def argStringB : String :=
  jarrStr [jarrStr [elemStr ("text") ("hello") ("10") ("20") ("110") ("220"),
    jobjStr [(("type"), jstrStr ("t2"))]]]

def mkToolCall (args : String) : JVal :=
  JVal.jobj [(("function"), JVal.jobj [(("arguments"), JVal.jstr args)])]

def mkMessage (args : String) : JVal :=
  JVal.jobj [(("tool_calls"), JVal.jarr [mkToolCall args])]

/-- A response value with the full choices[0].message.tool_calls chain
around the given arguments text, plus any extra top-level fields. -/
def mkResponse (args : String) (extra : List (String × JVal)) : JVal :=
  JVal.jobj ((("choices"), JVal.jarr [JVal.jobj [(("message"), mkMessage args)]]) :: extra)

/-- A well-formed element value as decoded from JSON. -/
def mkElem (lab txt : JVal) (x1 y1 x2 y2 : Int) : JVal :=
  JVal.jobj [(("type"), lab), (("text"), txt),
    (("bbox"), JVal.jobj [(("xmin"), JVal.jnum x1), (("ymin"), JVal.jnum y1),
      (("xmax"), JVal.jnum x2), (("ymax"), JVal.jnum y2)])]

def respA : JVal := mkResponse argStringA []

def elemA : JVal := mkElem (JVal.jstr ("text")) (JVal.jstr ("hello")) 10 20 110 220

def elemBad : JVal := JVal.jobj [(("type"), JVal.jstr ("t2"))]

def respB : JVal := mkResponse argStringB []

/-- The detection produced from elemA: width 110 - 10, height 220 - 20. -/
def dA : Detection := ⟨JVal.jstr ("text"), [10, 20, 100, 200], JVal.jstr ("hello")⟩

/-- An environment in which the parse API answers every image with the
JSON array body [], a non-dict response. -/
def envArr : String → Except Unit JVal := fun _ => .ok (JVal.jarr [])

/-- A response with one valid element whose top-level usage field is the
number 5, so usage.get raises after the detections were appended. -/
def respC5 : JVal := mkResponse argStringA [(("usage"), JVal.jnum 5)]

def envC5 : String → Except Unit JVal := fun _ => .ok respC5

/-- An environment in which every per-image pipeline raises (for
example, the upload POST returned HTTP 401). -/
def envFail : String → Except Unit JVal := fun _ => .error ()

/-- A response with no choices but a fully populated usage object. -/
def respW : JVal := JVal.jobj [(("usage"), JVal.jobj [(("prompt_tokens"), JVal.jnum 3),
  (("completion_tokens"), JVal.jnum 4), (("total_tokens"), JVal.jnum 7)])]

/-- A response whose message object is present but has no tool_calls. -/
def r9 : JVal := JVal.jobj [(("choices"), JVal.jarr [JVal.jobj [(("message"), JVal.jobj [])]])]

/-- Auth-call body for the upload witness. -/
def authBodyW : String :=
  jobjStr [(("uploadUrl"), jstrStr ("http-upload-url")), (("assetId"), jstrStr ("asset-77"))]

/-- A dataset with no samples but a pre-existing nemo_detections field. -/
def dsPre : Dataset := ⟨[], [(("nemo_detections"), [PyVal.j (JVal.jnum 7)])]⟩

/-- A dataset with one sample and one unrelated pre-existing field. -/
def dsOne : Dataset := ⟨[("img1.jpg")], [(("other_field"), [PyVal.j (JVal.jnum 1)])]⟩

/-
Helper lemmas. -/

/-- The accumulating loop equals the accumulator followed by the
greedy until-first-failure conversion. -/
theorem parsedLoop_eq_append (es : List JVal) :
    ∀ acc : List Detection, parsedLoop es acc = acc ++ convUntilError es := by
  induction es with
  | nil => intro acc; simp [parsedLoop, convUntilError]
  | cons e es ih =>
    intro acc
    cases h : convElem e with
    | ok d => simp [parsedLoop, convUntilError, h, ih]
    | error u => simp [parsedLoop, convUntilError, h]

/-- When every element converts, the greedy conversion returns them all,
in order, one output per element. -/
theorem convUntilError_of_convAll (es : List JVal) :
    ∀ ds : List Detection, convAll es = some ds →
      convUntilError es = ds ∧ ds.length = es.length := by
  induction es with
  | nil =>
    intro ds h
    simp [convAll] at h
    subst h
    simp [convUntilError]
  | cons e es ih =>
    intro ds h
    cases hc : convElem e with
    | error u => simp [convAll, hc] at h
    | ok d =>
      cases ha : convAll es with
      | none => simp [convAll, hc, ha] at h
      | some ds2 =>
        simp [convAll, hc, ha] at h
        obtain ⟨h1, h2⟩ := ih ds2 ha
        subst h
        simp [convUntilError, hc, h1, h2]

theorem lookupA_setAssoc_self {α : Type} (fs : List (String × α)) (k : String) (v : α) :
    lookupA (setAssoc fs k v) k = some v := by
  induction fs with
  | nil => simp [setAssoc, lookupA]
  | cons kv rest ih =>
    obtain ⟨k2, v2⟩ := kv
    by_cases h : k2 = k
    · simp [setAssoc, lookupA, h]
    · simp [setAssoc, lookupA, h, ih]

theorem lookupA_setAssoc_ne {α : Type} (fs : List (String × α)) (k k2 : String) (v : α)
    (h : k2 ≠ k) : lookupA (setAssoc fs k v) k2 = lookupA fs k2 := by
  induction fs with
  | nil => simp [setAssoc, lookupA, Ne.symm h]
  | cons kv rest ih =>
    obtain ⟨k3, v3⟩ := kv
    by_cases h3 : k3 = k
    · subst h3
      simp [setAssoc, lookupA, h, Ne.symm h]
    · by_cases h4 : k3 = k2
      · simp [setAssoc, lookupA, h3, h4, h]
      · simp [setAssoc, lookupA, h3, h4, ih]

/-- On an item whose response handling cannot raise after the
detections append, the loop body appends exactly one entry to each of
the four lists. -/
theorem runItem_good (r : Except Unit JVal) (acc : RunOut) (h : goodResp r = true) :
    runItem r acc =
      ⟨acc.all_detections ++ [itemDets r], acc.prompt_tokens ++ [itemTokP r],
       acc.completion_tokens ++ [itemTokC r], acc.total_tokens ++ [itemTokT r]⟩ := by
  cases r with
  | error u => rfl
  | ok response =>
    simp only [goodResp] at h
    cases hu : usageTokens response with
    | error u => rw [hu] at h; simp at h
    | ok pct =>
      obtain ⟨p, c, t⟩ := pct
      simp [runItem, hu, itemDets, itemTokP, itemTokC, itemTokT]

/-- Folding the loop body over a batch of good items appends the
per-item column entries in order. -/
theorem runFold_good (env : String → Except Unit JVal) (paths : List String) :
    ∀ acc : RunOut, (∀ p ∈ paths, goodResp (env p) = true) →
      paths.foldl (fun a q => runItem (env q) a) acc =
        ⟨acc.all_detections ++ paths.map (fun p => itemDets (env p)),
         acc.prompt_tokens ++ paths.map (fun p => itemTokP (env p)),
         acc.completion_tokens ++ paths.map (fun p => itemTokC (env p)),
         acc.total_tokens ++ paths.map (fun p => itemTokT (env p))⟩ := by
  induction paths with
  | nil => intro acc h; cases acc; simp
  | cons p ps ih =>
    intro acc h
    have hp : goodResp (env p) = true := h p (by simp)
    have hps : ∀ q ∈ ps, goodResp (env q) = true := fun q hq => h q (by simp [hq])
    simp only [List.foldl_cons]
    rw [runItem_good (env p) acc hp, ih _ hps]
    simp

/-- The batch loop on good items produces the four index-aligned maps. -/
theorem runLists_good (env : String → Except Unit JVal) (paths : List String)
    (h : ∀ p ∈ paths, goodResp (env p) = true) :
    runLists env paths =
      ⟨paths.map (fun p => itemDets (env p)), paths.map (fun p => itemTokP (env p)),
       paths.map (fun p => itemTokC (env p)), paths.map (fun p => itemTokT (env p))⟩ := by
  rw [runLists, runFold_good env paths ⟨[], [], [], []⟩ h]
  simp

/-
Claim theorems. -/

/-- C1: the claim says the four per-sample output lists always have
length equal to the number of input filepaths, no matter how many
per-item failures occur.  The code violates this: when a response is
not a dict (here, the JSON body []), the loop appends the parsed
detections, then response.get raises and the except branch appends
again, so the detections list gains two entries for one image while the
token lists gain one.  This theorem evaluates the loop at that failing
input: one input path yields a detections list of length 2 and token
lists of length 1. -/
theorem C1_output_lists_misaligned :
    (runLists envArr [("a.jpg")]).all_detections.length = 2 ∧
    (runLists envArr [("a.jpg")]).prompt_tokens.length = 1 ∧
    (runLists envArr [("a.jpg")]).completion_tokens.length = 1 ∧
    (runLists envArr [("a.jpg")]).total_tokens.length = 1 :=
  ⟨rfl, rfl, rfl, rfl⟩

/-- C2 counterexample: the claim says any exception inside
parse_nemo_response_to_detections, including one raised partway through
the element loop, yields an EMPTY region sequence.  In respB the second
element raises (no bbox key) after the first already appended, and the
function returns the one parsed region, which is not empty. -/
theorem C2_partial_regions_counterexample :
    extractElems respB = .ok [elemA, elemBad] ∧
    convElem elemBad = .error () ∧
    parse_nemo_response_to_detections respB = [dA] ∧
    ([dA] : List Detection) ≠ [] :=
  ⟨rfl, rfl, rfl, by simp⟩

/-- C2 amended: on any exception the function propagates nothing and
returns the regions accumulated so far: an exception before the element
loop (missing keys, malformed JSON, type errors) yields the empty
sequence, and an exception partway through the loop yields the regions
parsed before the failing element. -/
theorem C2_parse_best_effort_amended (response : JVal) :
    (∀ u : Unit, extractElems response = .error u →
      parse_nemo_response_to_detections response = []) ∧
    (∀ es : List JVal, extractElems response = .ok es →
      parse_nemo_response_to_detections response = convUntilError es) := by
  constructor
  · intro u h
    simp [parse_nemo_response_to_detections, h]
  · intro es h
    simp [parse_nemo_response_to_detections, h, parsedLoop_eq_append]

theorem C2_parse_best_effort_witness :
    parse_nemo_response_to_detections JVal.jnull = [] :=
  (C2_parse_best_effort_amended JVal.jnull).1 () rfl

/-- C3: a well-formed response whose arguments decode to element objects
that all convert yields exactly one region per element, in order, and
each element with bbox corners (xmin, ymin, xmax, ymax) yields the
boundingBox [xmin, ymin, xmax - xmin, ymax - ymin]. -/
theorem C3_wellformed_conversion (response : JVal) (es : List JVal) (ds : List Detection)
    (h1 : extractElems response = .ok es) (h2 : convAll es = some ds) :
    parse_nemo_response_to_detections response = ds ∧ ds.length = es.length ∧
    ∀ (lab txt : JVal) (x1 y1 x2 y2 : Int),
      convElem (mkElem lab txt x1 y1 x2 y2) =
        .ok ⟨lab, [x1, y1, x2 - x1, y2 - y1], txt⟩ := by
  obtain ⟨hc, hl⟩ := convUntilError_of_convAll es ds h2
  refine ⟨?_, hl, ?_⟩
  · simp [parse_nemo_response_to_detections, h1, parsedLoop_eq_append, hc]
  · intro lab txt x1 y1 x2 y2
    rfl

/-- C3 witness: the concrete response with bbox corners (10, 20) and
(110, 220) yields the single boundingBox [10, 20, 100, 200]. -/
theorem C3_wellformed_conversion_witness :
    parse_nemo_response_to_detections respA = [dA] :=
  (C3_wellformed_conversion respA [elemA] [dA] rfl rfl).1

/-- C4: the package entry file pulls run_nemo_retriever_parse from the
core module, but the core module defines only run_nemo_parse (and four
helpers), so loading the plugin package fails with an ImportError
before any image is processed. -/
theorem C4_plugin_package_load_fails :
    load_plugin_package =
      .error (("ImportError: cannot import name ") ++ ("run_nemo_retriever_parse")) ∧
    ("run_nemo_parse") ∈ nemo_retriever_module_defs ∧
    init_module_pulled_name ∉ nemo_retriever_module_defs := by
  refine ⟨rfl, by decide, by decide⟩

/-- C5: the claim says any exception in an image's per-item pipeline
leaves an empty detections value and zero counters at that position.
With respC5 (valid choices, usage field equal to the number 5), the
exception is raised by usage.get during response handling, after the
one-region parse result was appended: position 0 of the detections list
holds a NON-empty value, and an extra empty entry follows it, so the
zero-value substitution does not land at the failing position. -/
theorem C5_failed_item_not_zeroed_in_place :
    (runLists envC5 [("a.jpg")]).all_detections = [[dA], []] ∧
    (runLists envC5 [("a.jpg")]).prompt_tokens = [JVal.jnum 0] ∧
    (runLists envC5 [("a.jpg")]).completion_tokens = [JVal.jnum 0] ∧
    (runLists envC5 [("a.jpg")]).total_tokens = [JVal.jnum 0] ∧
    ([dA] : List Detection) ≠ [] :=
  ⟨rfl, rfl, rfl, rfl, by simp⟩

/-- C6: upload_asset raises whenever either of its two sequential calls
returns a non-success status (the second call's status is only reached
through the single straight-line path, with no retry), and when both
succeed on a body holding uploadUrl and assetId it returns str of the
assetId received from the first call. -/
theorem C6_upload_asset_contract (a p : HttpResp) :
    (statusErr a.status = true ∨ statusErr p.status = true →
      upload_asset a p = .error ()) ∧
    (statusErr a.status = false → statusErr p.status = false →
      ∀ (bv u av : JVal), jloads a.body = .ok bv →
        subKey bv ("uploadUrl") = .ok u → subKey bv ("assetId") = .ok av →
        upload_asset a p = .ok (pyStr av)) := by
  constructor
  · intro h
    rcases h with h | h
    · simp [upload_asset, h]
    · by_cases ha : statusErr a.status = true
      · simp [upload_asset, ha]
      · rw [Bool.not_eq_true] at ha
        cases hb : jloads a.body with
        | error u => simp [upload_asset, ha, hb]
        | ok bv =>
          cases hu : subKey bv ("uploadUrl") with
          | error u => simp [upload_asset, ha, hb, hu]
          | ok uu => simp [upload_asset, ha, hb, hu, h]
  · intro ha hp bv u av hb hu hv
    simp [upload_asset, ha, hp, hb, hu, hv]

theorem C6_upload_asset_contract_witness :
    upload_asset ⟨200, authBodyW⟩ ⟨200, ("")⟩ = .ok ("asset-77") :=
  (C6_upload_asset_contract ⟨200, authBodyW⟩ ⟨200, ("")⟩).2 rfl rfl
    (JVal.jobj [(("uploadUrl"), JVal.jstr ("http-upload-url")),
      (("assetId"), JVal.jstr ("asset-77"))])
    (JVal.jstr ("http-upload-url")) (JVal.jstr ("asset-77")) rfl rfl rfl

/-- C7 counterexample: the claim says every HTTP call of the pipeline
carries an Authorization Bearer header, but the raw-bytes PUT of
upload_asset (lines 59 to 67) sends only the asset-description and
content-type headers: its header dict has no Authorization key (shown
here with the literal description the source passes).  The registration
POST does carry the Bearer header, for contrast. -/
theorem C7_put_call_lacks_authorization :
    lookupA (upload_put_headers ("Test Image")) ("Authorization") = none ∧
    lookupA (create_headers ("k") none) ("Authorization") = some (("Bearer ") ++ ("k")) :=
  ⟨rfl, rfl⟩

/-- C7 amended: both requests-library calls built through create_headers
(the upload-slot POST and the parse POST) carry the Authorization Bearer
header, the asset-bound parse call additionally carries the two NVCF
headers set to the asset id, and the raw-bytes PUT to the pre-signed
upload URL carries no Authorization header. -/
theorem C7_headers_amended (api_key asset_id description : String)
    (h : asset_id ≠ ("")) :
    lookupA (create_headers api_key none) ("Authorization") = some (("Bearer ") ++ api_key) ∧
    lookupA (create_headers api_key (some asset_id)) ("Authorization") =
      some (("Bearer ") ++ api_key) ∧
    lookupA (create_headers api_key (some asset_id)) ("NVCF-INPUT-ASSET-REFERENCES") =
      some asset_id ∧
    lookupA (create_headers api_key (some asset_id)) ("NVCF-FUNCTION-ASSET-IDS") =
      some asset_id ∧
    lookupA (upload_put_headers description) ("Authorization") = none := by
  refine ⟨rfl, ?_, ?_, ?_, rfl⟩ <;>
    simp [create_headers, dictUpdate, setAssoc, lookupA, h]

theorem C7_headers_amended_witness :
    lookupA (create_headers ("key1") (some ("aid1"))) ("NVCF-INPUT-ASSET-REFERENCES") =
      some ("aid1") :=
  (C7_headers_amended ("key1") ("aid1") ("desc") (by decide)).2.2.1

/-- C8 counterexample: the claim says every processed image ends in
exactly one of two terminal states, Success or Failed, each one entry
per output list.  A response that is a JSON string makes the loop body
append the (empty) parse result AND the except-branch empty entry: two
detections entries against one token entry, which is neither terminal
state. -/
theorem C8_double_append_counterexample :
    runItem (.ok (JVal.jstr ("zzz"))) ⟨[], [], [], []⟩ =
      ⟨[[], []], [JVal.jnum 0], [JVal.jnum 0], [JVal.jnum 0]⟩ ∧
    ([[], []] : List (List Detection)).length ≠ 1 :=
  ⟨rfl, by simp⟩

/-- C8 amended: for every item whose response handling cannot itself
raise after the detections append (the pipeline raised earlier, or the
usage extraction succeeds), the item's contribution is exactly one of
the two terminal shapes: Failed (one empty detections entry and three
zeros) or Success (the parsed regions and the three usage counters). -/
theorem C8_two_terminal_states_amended (r : Except Unit JVal) (h : goodResp r = true) :
    runItem r ⟨[], [], [], []⟩ =
      ⟨[[]], [JVal.jnum 0], [JVal.jnum 0], [JVal.jnum 0]⟩ ∨
    (∃ response p c t, r = .ok response ∧ usageTokens response = .ok (p, c, t) ∧
      runItem r ⟨[], [], [], []⟩ =
        ⟨[parse_nemo_response_to_detections response], [p], [c], [t]⟩) := by
  cases r with
  | error u => left; rfl
  | ok response =>
    simp only [goodResp] at h
    cases hu : usageTokens response with
    | error u => rw [hu] at h; simp at h
    | ok pct =>
      obtain ⟨p, c, t⟩ := pct
      right
      exact ⟨response, p, c, t, rfl, hu, by simp [runItem, hu]⟩

theorem C8_two_terminal_states_witness :
    runItem (.ok respW) ⟨[], [], [], []⟩ =
      ⟨[[]], [JVal.jnum 3], [JVal.jnum 4], [JVal.jnum 7]⟩ := by
  rcases C8_two_terminal_states_amended (.ok respW) rfl with h | ⟨resp, p, c, t, he, hu, hr⟩
  · have h2 : ([JVal.jnum 3] : List JVal) = [JVal.jnum 0] :=
      congrArg RunOut.prompt_tokens h
    simp at h2
  · cases he
    have h3 : (Except.ok (JVal.jnum 3, JVal.jnum 4, JVal.jnum 7) :
        Except Unit (JVal × JVal × JVal)) = .ok (p, c, t) := hu
    injection h3 with h4
    injection h4 with hp h5
    injection h5 with hc ht
    subst hp
    subst hc
    subst ht
    exact hr

/-- C9: a response whose message object lacks the tool_calls key makes
the extraction chain raise before the loop, so conversion returns zero
regions; no exception escapes (the model of the function is total by
construction, returning a region list for every response value). -/
theorem C9_missing_tool_calls_empty (response msg : JVal)
    (h1 : getMessage response = .ok msg)
    (h2 : subKey msg ("tool_calls") = .error ()) :
    parse_nemo_response_to_detections response = [] := by
  simp [parse_nemo_response_to_detections, extractElems, extractArgs, h1, h2]

theorem C9_missing_tool_calls_empty_witness :
    parse_nemo_response_to_detections r9 = [] :=
  C9_missing_tool_calls_empty r9 (JVal.jobj []) rfl rfl

/-- C10 counterexample: the claim says run_nemo_parse never mutates any
pre-existing dataset field.  On a dataset that already has a
nemo_detections field, the batch write overwrites it: here the
pre-existing value [7] becomes the empty column. -/
theorem C10_overwrites_existing_field :
    getField (run_nemo_parse envFail dsPre) ("nemo_detections") = some [] ∧
    getField dsPre ("nemo_detections") = some [PyVal.j (JVal.jnum 7)] :=
  ⟨rfl, rfl⟩

/-- C10 amended: run_nemo_parse writes exactly the four output fields
after all items are processed, overwriting same-named pre-existing
fields, and leaves every differently-named field unchanged; provided no
item's response handling raises after its detections append (every
response is a dict whose usage value, if present, is a dict — or the
item failed earlier), each of the four fields receives exactly one
value per sample, in the original input order. -/
theorem C10_frame_and_order_amended (env : String → Except Unit JVal) (ds : Dataset)
    (hgood : ∀ p ∈ ds.filepaths, goodResp (env p) = true) :
    (∀ name, name ≠ ("nemo_detections") → name ≠ ("nemo_prompt_tokens") →
      name ≠ ("nemo_completion_tokens") → name ≠ ("nemo_total_tokens") →
      getField (run_nemo_parse env ds) name = getField ds name) ∧
    getField (run_nemo_parse env ds) ("nemo_detections") =
      some (ds.filepaths.map (fun p => PyVal.dets (itemDets (env p)))) ∧
    getField (run_nemo_parse env ds) ("nemo_prompt_tokens") =
      some (ds.filepaths.map (fun p => PyVal.j (itemTokP (env p)))) ∧
    getField (run_nemo_parse env ds) ("nemo_completion_tokens") =
      some (ds.filepaths.map (fun p => PyVal.j (itemTokC (env p)))) ∧
    getField (run_nemo_parse env ds) ("nemo_total_tokens") =
      some (ds.filepaths.map (fun p => PyVal.j (itemTokT (env p)))) := by
  have hrl := runLists_good env ds.filepaths hgood
  refine ⟨?_, ?_, ?_, ?_, ?_⟩
  · intro name h1 h2 h3 h4
    simp only [run_nemo_parse, getField, Dataset.set_values]
    rw [lookupA_setAssoc_ne _ _ _ _ h4, lookupA_setAssoc_ne _ _ _ _ h3,
      lookupA_setAssoc_ne _ _ _ _ h2, lookupA_setAssoc_ne _ _ _ _ h1]
  · simp only [run_nemo_parse, getField, Dataset.set_values]
    rw [lookupA_setAssoc_ne _ _ _ _ (by decide),
      lookupA_setAssoc_ne _ _ _ _ (by decide),
      lookupA_setAssoc_ne _ _ _ _ (by decide),
      lookupA_setAssoc_self, hrl]
    simp
  · simp only [run_nemo_parse, getField, Dataset.set_values]
    rw [lookupA_setAssoc_ne _ _ _ _ (by decide),
      lookupA_setAssoc_ne _ _ _ _ (by decide),
      lookupA_setAssoc_self, hrl]
    simp
  · simp only [run_nemo_parse, getField, Dataset.set_values]
    rw [lookupA_setAssoc_ne _ _ _ _ (by decide), lookupA_setAssoc_self, hrl]
    simp
  · simp only [run_nemo_parse, getField, Dataset.set_values]
    rw [lookupA_setAssoc_self, hrl]
    simp

theorem C10_frame_and_order_witness :
    getField (run_nemo_parse envFail dsOne) ("other_field") = some [PyVal.j (JVal.jnum 1)] ∧
    getField (run_nemo_parse envFail dsOne) ("nemo_prompt_tokens") =
      some [PyVal.j (JVal.jnum 0)] := by
  have h := C10_frame_and_order_amended envFail dsOne (fun p hp => rfl)
  exact ⟨h.1 ("other_field") (by decide) (by decide) (by decide) (by decide), h.2.2.1⟩

end Nemo
